import Mathlib

/-!
Shallow embedding of the metal MySQL proxy core (package proxy): the packet
codec, scalar encoders, response builders, credential verifier, handshake
orchestrator and the session command loop. Bytes are modelled as natural
numbers (every byte value is below 256 in the real program); byte streams and
Go byte slices are lists of naturals. Go functions returning (value, error)
become Except or Option; the SHA-1 primitive from the Go standard library is
an explicit function parameter.
-/

namespace Metal

/-- A protocol frame: 24-bit payload length, 8-bit sequence, payload bytes. -/
structure Packet where
  length : Nat
  sequence : Nat
  payload : List Nat
deriving DecidableEq

/-- Failure modes of ReadPacket: the stream ended inside the 4-byte header or
inside the declared payload. -/
inductive ReadErr where
  | truncatedHeader
  | truncatedPayload
deriving DecidableEq

/-- Failure mode of WritePacket: payload longer than 0xFFFFFF. -/
inductive WriteErr where
  | payloadTooLarge
deriving DecidableEq

/-- ReadPacket: consume 4 header bytes (3-byte little-endian length, then the
sequence byte), then exactly length payload bytes; a declared length of zero
yields a packet with an empty payload. Returns the packet and the rest of the
stream. -/
def ReadPacket (stream : List Nat) : Except ReadErr (Packet × List Nat) :=
  match stream with
  | b0 :: b1 :: b2 :: b3 :: rest =>
    let length := b0 ||| (b1 <<< 8) ||| (b2 <<< 16)
    if length = 0 then .ok (⟨0, b3, []⟩, rest)
    else if rest.length < length then .error .truncatedPayload
    else .ok (⟨length, b3, rest.take length⟩, rest.drop length)
  | _ => .error .truncatedHeader

/-- WritePacket: reject payloads longer than 0xFFFFFF, otherwise produce the
4-byte header (payload length in 3 little-endian bytes, then the sequence
byte) followed by the payload. The error case produces no bytes at all: the
Go function returns before any write is issued. -/
def WritePacket (sequence : Nat) (payload : List Nat) : Except WriteErr (List Nat) :=
  if payload.length > 0xFFFFFF then .error .payloadTooLarge
  else .ok ([payload.length % 256, (payload.length >>> 8) % 256,
             (payload.length >>> 16) % 256, sequence] ++ payload)

/-- bytes.IndexByte: index of the first occurrence of b, if any. -/
def indexOfByte (b : Nat) : List Nat → Option Nat
  | [] => none
  | x :: xs => if x = b then some 0 else (indexOfByte b xs).map (· + 1)

/-- ReadNullTerminatedString: bytes before the first zero byte, and the
number of bytes consumed including the terminator; fails when no zero byte
occurs. -/
def ReadNullTerminatedString (data : List Nat) : Option (List Nat × Nat) :=
  match indexOfByte 0 data with
  | none => none
  | some i => some (data.take i, i + 1)

/-- binary.LittleEndian.Uint64 over the first 8 bytes. -/
def leUint64 (bs : List Nat) : Nat :=
  bs.getD 0 0 ||| (bs.getD 1 0 <<< 8) ||| (bs.getD 2 0 <<< 16) |||
    (bs.getD 3 0 <<< 24) ||| (bs.getD 4 0 <<< 32) ||| (bs.getD 5 0 <<< 40) |||
    (bs.getD 6 0 <<< 48) ||| (bs.getD 7 0 <<< 56)

/-- ReadLengthEncodedInt: first byte below 0xFB is the value itself; 0xFB is
the NULL sentinel, returned as value 0 with 1 byte consumed; 0xFC, 0xFD and
0xFE introduce 2-, 3- and 8-byte little-endian forms; anything else, or too
few trailing bytes, fails. -/
def ReadLengthEncodedInt (data : List Nat) : Option (Nat × Nat) :=
  match data with
  | [] => none
  | first :: _ =>
    if first < 0xFB then some (first, 1)
    else if first = 0xFB then some (0, 1)
    else if first = 0xFC then
      if data.length < 3 then none
      else some (data.getD 1 0 ||| (data.getD 2 0 <<< 8), 3)
    else if first = 0xFD then
      if data.length < 4 then none
      else some (data.getD 1 0 ||| (data.getD 2 0 <<< 8) ||| (data.getD 3 0 <<< 16), 4)
    else if first = 0xFE then
      if data.length < 9 then none
      else some (leUint64 (data.drop 1), 9)
    else none

/-- binary.LittleEndian.PutUint64: the 8 little-endian bytes of n. -/
def putUint64LE (n : Nat) : List Nat :=
  [n % 256, (n >>> 8) % 256, (n >>> 16) % 256, (n >>> 24) % 256,
   (n >>> 32) % 256, (n >>> 40) % 256, (n >>> 48) % 256, (n >>> 56) % 256]

/-- lengthEncode: the 1-, 3-, 4- or 9-byte length-encoded form chosen by the
magnitude of n. The Go function also returns an error value that is nil on
every path. -/
def lengthEncode (n : Nat) : List Nat :=
  if n < 251 then [n]
  else if n < 1 <<< 16 then [0xFC, n % 256, (n >>> 8) % 256]
  else if n < 1 <<< 24 then [0xFD, n % 256, (n >>> 8) % 256, (n >>> 16) % 256]
  else 0xFE :: putUint64LE n

/-- NewOKPacket: 0x00 header, length-encoded affected rows and last insert
id, 2-byte little-endian status, 2-byte warning count fixed at zero. -/
def NewOKPacket (affectedRows lastInsertID status : Nat) : List Nat :=
  [0x00] ++ lengthEncode affectedRows ++ lengthEncode lastInsertID ++
    [status % 256, (status >>> 8) % 256] ++ [0, 0]

/-- NewErrPacket: 0xFF header, 2-byte little-endian code, the marker byte
0x23, the SQL state bytes, then the message bytes. -/
def NewErrPacket (code : Nat) (sqlState message : List Nat) : List Nat :=
  [0xFF, code % 256, (code >>> 8) % 256, 0x23] ++ sqlState ++ message

/-- The bytes of the configured password string. -/
def passwordBytes : List Nat := [112, 97, 115, 115, 119, 111, 114, 100]

/-- The bytes of the SQL state used for access denied. -/
def sqlState28000 : List Nat := [50, 56, 48, 48, 48]

/-- The bytes of the SQL state used for command errors. -/
def sqlState42000 : List Nat := [52, 50, 48, 48, 48]

/-- The access-denied message: a fixed prefix, the attempted username, and a
closing quote byte 39. -/
def accessDeniedMsg (username : List Nat) : List Nat :=
  [65, 99, 99, 101, 115, 115, 32, 100, 101, 110, 105, 101, 100, 32, 102, 111,
   114, 32, 117, 115, 101, 114, 32, 39] ++ username ++ [39]

/-- verifyMySQLNativePassword, parametrised by the SHA-1 primitive sha1H from
the Go standard library (which always returns 20 bytes). Rejects a client
response that is not exactly 20 bytes or a scramble shorter than 20 bytes;
otherwise compares the response byte-by-byte against candidate XOR stage1. -/
def verifyMySQLNativePassword (sha1H : List Nat → List Nat)
    (clientResp password scramble : List Nat) : Bool :=
  if clientResp.length ≠ 20 ∨ scramble.length < 20 then false
  else
    let stage1 := sha1H password
    let stage2 := sha1H stage1
    let candidate := sha1H (scramble ++ stage2)
    (List.range 20).all fun i =>
      clientResp.getD i 0 == candidate.getD i 0 ^^^ stage1.getD i 0

/-- Reinterpretation of a uint64 value as a signed 64-bit int, as performed
by the Go conversion int(authLen) on a 64-bit platform. -/
def int64OfUint64 (n : Nat) : Int :=
  if n < 2 ^ 63 then (n : Int) else (n : Int) - 2 ^ 64

/-- Wrap-around of signed 64-bit addition. -/
def int64Wrap (x : Int) : Int := (x + 2 ^ 63) % 2 ^ 64 - 2 ^ 63

/-- Outcome of handleClientHandshakePacket: the structured errors it can
return, the runtime fault raised by an out-of-range slice, or the packet it
wrote (sequence and payload of the single WritePacket call). -/
inductive HSResult where
  | panicked
  | errInvalidHandshake
  | errInvalidPacket
  | errParseUsername
  | errParseAuthLen
  | errPayloadTooLarge
  | wrote (sequence : Nat) (pkt : List Nat)
deriving DecidableEq

/-- The trailing WritePacket call of the handshake handler: on success the
handler returns the nil error, modelled by wrote. -/
def writeTo (seq : Nat) (pkt : List Nat) : HSResult :=
  match WritePacket seq pkt with
  | .error _ => .errPayloadTooLarge
  | .ok _ => .wrote seq pkt

/-- handleClientHandshakePacket: reject payloads shorter than 32 bytes, read
a null-terminated username starting at offset 36, a length-encoded auth
response length, then that many auth response bytes, and answer with an OK or
an access-denied ERR packet at sequence+1 (uint8 arithmetic). Go slicing
faults are modelled explicitly: payload[36:] faults when the payload is
shorter than 36 bytes, and payload[pos : pos+int(authLen)] faults when the
signed end index falls below pos, which the bounds check before it does not
rule out. The discarded read of payload[4:8] is always in range once the
32-byte check has passed. -/
def handleClientHandshakePacket (sha1H : List Nat → List Nat)
    (payload scramble : List Nat) (sequence : Nat) : HSResult :=
  if payload.length < 32 then .errInvalidHandshake
  else if payload.length < 36 then .panicked
  else
    match ReadNullTerminatedString (payload.drop 36) with
    | none => .errParseUsername
    | some (username, n) =>
      match ReadLengthEncodedInt (payload.drop (36 + n)) with
      | none => .errParseAuthLen
      | some (authLen, authSize) =>
        let pos := 36 + n + authSize
        let hi : Int := int64Wrap ((pos : Int) + int64OfUint64 authLen)
        if hi > (payload.length : Int) then .errInvalidPacket
        else if hi < (pos : Int) then .panicked
        else
          let authResp := (payload.drop pos).take (hi - (pos : Int)).toNat
          if ¬ verifyMySQLNativePassword sha1H authResp passwordBytes scramble then
            writeTo ((sequence + 1) % 256)
              (NewErrPacket 1045 sqlState28000 (accessDeniedMsg username))
          else
            writeTo ((sequence + 1) % 256) (NewOKPacket 0 0 0)

/-- Outcome of HandleHandshake: a failed packet read, or the handler result. -/
inductive HandshakeOutcome where
  | readFailed (e : ReadErr)
  | handled (r : HSResult)
deriving DecidableEq

/-- HandleHandshake: read one packet from the stream and hand its payload to
handleClientHandshakePacket, using the sequence number carried by the client
packet (the sequence argument of the Go function is unused by its body). -/
def HandleHandshake (sha1H : List Nat → List Nat) (stream scramble : List Nat)
    (_sequence : Nat) : HandshakeOutcome :=
  match ReadPacket stream with
  | .error e => .readFailed e
  | .ok (pkt, _) => .handled (handleClientHandshakePacket sha1H pkt.payload scramble pkt.sequence)

/-- Whether the handshake handler returned a non-nil Go error. Every outcome
except a completed write is a non-nil error; a completed write of the OK or
of the access-denied ERR packet returns nil. -/
def handshakeReportsFailure : HSResult → Bool
  | .wrote _ _ => false
  | _ => true

/-- Connection.Handle proceeds past the handshake into the post-auth command
loop exactly when HandleHandshake returned a nil error. -/
def entersSessionLoop (r : HSResult) : Bool := ! handshakeReportsFailure r

/-- Command byte of COM_QUIT. -/
def COM_QUIT : Nat := 0x01

/-- Command byte of COM_INIT_DB. -/
def COM_INIT_DB : Nat := 0x02

/-- Command byte of COM_QUERY. -/
def COM_QUERY : Nat := 0x03

/-- The non-nil errors handleCommand can return: io.EOF for COM_QUIT, or the
unsupported-command error. -/
inductive CmdErr where
  | eofErr
  | unsupported (cmd : Nat)
deriving DecidableEq

/-- The message bytes of a command error: io.EOF stringifies to EOF; the
unsupported-command error embeds the command byte in decimal. -/
def cmdErrMessage : CmdErr → List Nat
  | .eofErr => [69, 79, 70]
  | .unsupported cmd =>
    [117, 110, 115, 117, 112, 112, 111, 114, 116, 101, 100, 32, 99, 111, 109,
     109, 97, 110, 100, 58, 32] ++ (Nat.toDigits 10 cmd).map Char.toNat

/-- Connection.executeQuery: the placeholder executor answers OK to every
statement and never returns an error. -/
def executeQuery (_query : List Nat) : Option (List Nat) := some (NewOKPacket 0 0 0)

/-- Connection.handleCommand: dispatch on the first payload byte. COM_QUIT
answers (nil, io.EOF); COM_INIT_DB answers an OK packet; COM_QUERY delegates
to executeQuery with a nil error; anything else is the unsupported-command
error. Callers guarantee a non-empty payload. -/
def handleCommand (payload : List Nat) : Option (List Nat) × Option CmdErr :=
  let cmd := payload.headD 0
  if cmd = COM_QUIT then (none, some .eofErr)
  else if cmd = COM_INIT_DB then (some (NewOKPacket 0 0 0), none)
  else if cmd = COM_QUERY then (executeQuery payload.tail, none)
  else (none, some (.unsupported cmd))

/-- Whether the command loop of Connection.Handle runs another iteration. -/
inductive LoopAction where
  | continueLoop
  | stopLoop
deriving DecidableEq

/-- One iteration of the command loop of Connection.Handle on an inbound
packet: an empty payload is skipped; a command error is answered with an ERR
packet at code 1064 and the loop continues; a nil response continues
silently; otherwise the response is written. Writes are modelled as
succeeding; outputs are the (sequence, payload) pairs handed to WritePacket. -/
def sessionLoopStep (pkt : Packet) : List (Nat × List Nat) × LoopAction :=
  if pkt.payload.length = 0 then ([], .continueLoop)
  else
    match handleCommand pkt.payload with
    | (_, some e) =>
      ([((pkt.sequence + 1) % 256, NewErrPacket 1064 sqlState42000 (cmdErrMessage e))],
       .continueLoop)
    | (none, none) => ([], .continueLoop)
    | (some resp, none) => ([((pkt.sequence + 1) % 256, resp)], .continueLoop)

/-- A stand-in for the SHA-1 primitive, used to instantiate theorems with a
function parameter at concrete inputs. -/
def hashStub : List Nat → List Nat := fun _ => List.replicate 20 0

/-- Whether a handshake result wrote a packet whose first byte is the OK
header byte 0x00 (an ERR packet starts with 0xFF instead). -/
def hsWroteOK : HSResult → Bool
  | .wrote _ pkt => pkt.headD 1 == 0
  | _ => false

end Metal

namespace Metal

/-! ### Helper lemmas -/

/-- A bitwise or of a value below 2 ^ k with a value shifted left by k is
their sum. -/
theorem lor_shl_eq_add {a : Nat} (k b : Nat) (h : a < 2 ^ k) :
    a ||| (b <<< k) = 2 ^ k * b + a := by
  rw [Nat.shiftLeft_eq, Nat.mul_comm b (2 ^ k), Nat.lor_comm, ← Nat.mul_add_lt_is_or h]

/-- Reading back the 8 little-endian bytes of a 64-bit value. -/
theorem leUint64_putUint64LE (v : Nat) (hv : v < 2 ^ 64) :
    leUint64 (putUint64LE v) = v := by
  show (v % 256) ||| (((v >>> 8) % 256) <<< 8) ||| (((v >>> 16) % 256) <<< 16) |||
      (((v >>> 24) % 256) <<< 24) ||| (((v >>> 32) % 256) <<< 32) |||
      (((v >>> 40) % 256) <<< 40) ||| (((v >>> 48) % 256) <<< 48) |||
      (((v >>> 56) % 256) <<< 56) = v
  simp only [Nat.shiftRight_eq_div_pow]
  rw [lor_shl_eq_add 8 _ (by omega), lor_shl_eq_add 16 _ (by omega),
      lor_shl_eq_add 24 _ (by omega), lor_shl_eq_add 32 _ (by omega),
      lor_shl_eq_add 40 _ (by omega), lor_shl_eq_add 48 _ (by omega),
      lor_shl_eq_add 56 _ (by omega)]
  omega

/-- int64Wrap is the identity on the signed 64-bit range. -/
theorem int64Wrap_eq_self {x : Int} (h1 : -(2 ^ 63) ≤ x) (h2 : x < 2 ^ 63) :
    int64Wrap x = x := by
  unfold int64Wrap
  rw [Int.emod_eq_of_lt (by omega) (by omega)]
  omega

/-- The signed reinterpretation of a value below 2 ^ 63 is itself. -/
theorem int64OfUint64_eq_self {n : Nat} (h : n < 2 ^ 63) : int64OfUint64 n = n := by
  rw [int64OfUint64, if_pos h]

/-- indexOfByte finds the zero byte placed right after a zero-free prefix. -/
theorem indexOfByte_append_zero (u rest : List Nat) (hu : 0 ∉ u) :
    indexOfByte 0 (u ++ 0 :: rest) = some u.length := by
  induction u with
  | nil => simp [indexOfByte]
  | cons a t ih =>
    have ha : a ≠ 0 := fun h => hu (h ▸ List.mem_cons_self a t)
    have ht : (0 : Nat) ∉ t := fun h => hu (List.mem_cons_of_mem a h)
    simp [indexOfByte, ha, ih ht]

/-- ReadNullTerminatedString on a zero-free prefix followed by a zero byte. -/
theorem readNullTerminated_append_zero (u rest : List Nat) (hu : 0 ∉ u) :
    ReadNullTerminatedString (u ++ 0 :: rest) = some (u, u.length + 1) := by
  unfold ReadNullTerminatedString
  rw [indexOfByte_append_zero u rest hu]
  simp [List.take_left]

/-- Behaviour of the handshake handler on any well-formed client response
payload: a 36-byte fixed region, a zero-free username ended by a zero byte, a
length-encoded auth-response length that decodes to the auth-response size,
the auth response itself, and ignored trailing bytes, with the whole payload
within the 24-bit packet bound. The handler answers OK when the credential
verifier accepts and the access-denied ERR otherwise, both at the next
sequence number. -/
theorem handshake_wellFormed (H : List Nat → List Nat)
    (pre username enc authResp trailing scramble : List Nat) (seq : Nat)
    (hpre : pre.length = 36)
    (hu : (0 : Nat) ∉ username)
    (henc : ReadLengthEncodedInt (enc ++ (authResp ++ trailing)) =
      some (authResp.length, enc.length))
    (hlen : (pre ++ (username ++ (0 :: (enc ++ (authResp ++ trailing))))).length ≤ 0xFFFFFF) :
    handleClientHandshakePacket H (pre ++ (username ++ (0 :: (enc ++ (authResp ++ trailing)))))
        scramble seq =
      if verifyMySQLNativePassword H authResp passwordBytes scramble then
        .wrote ((seq + 1) % 256) (NewOKPacket 0 0 0)
      else
        .wrote ((seq + 1) % 256) (NewErrPacket 1045 sqlState28000 (accessDeniedMsg username)) := by
  have hPlen : (pre ++ (username ++ (0 :: (enc ++ (authResp ++ trailing))))).length
      = 37 + username.length + enc.length + authResp.length + trailing.length := by
    simp [List.length_append, hpre]
    omega
  have hd36 : (pre ++ (username ++ (0 :: (enc ++ (authResp ++ trailing))))).drop 36
      = username ++ (0 :: (enc ++ (authResp ++ trailing))) := List.drop_left' hpre
  have hrnts := readNullTerminated_append_zero username (enc ++ (authResp ++ trailing)) hu
  have hdU : (pre ++ (username ++ (0 :: (enc ++ (authResp ++ trailing))))).drop
        (36 + (username.length + 1))
      = enc ++ (authResp ++ trailing) := by
    have e : pre ++ (username ++ (0 :: (enc ++ (authResp ++ trailing))))
        = (pre ++ (username ++ [0])) ++ (enc ++ (authResp ++ trailing)) := by simp
    rw [e]
    exact List.drop_left' (by simp [hpre])
  have hdA : (pre ++ (username ++ (0 :: (enc ++ (authResp ++ trailing))))).drop
        (36 + (username.length + 1) + enc.length)
      = authResp ++ trailing := by
    have e : pre ++ (username ++ (0 :: (enc ++ (authResp ++ trailing))))
        = ((pre ++ (username ++ [0])) ++ enc) ++ (authResp ++ trailing) := by simp
    rw [e]
    refine List.drop_left' ?_
    simp [hpre]
    omega
  have ha63 : authResp.length < 2 ^ 63 := by omega
  unfold handleClientHandshakePacket
  rw [if_neg (by omega), if_neg (by omega), hd36, hrnts]
  dsimp only
  rw [hdU, henc]
  dsimp only
  rw [int64OfUint64_eq_self ha63]
  rw [int64Wrap_eq_self (by push_cast; omega) (by push_cast; omega)]
  rw [if_neg (by push_cast; omega), if_neg (by push_cast; omega)]
  have htn : ((↑(36 + (username.length + 1) + enc.length) : Int) + ↑authResp.length -
      ↑(36 + (username.length + 1) + enc.length)).toNat = authResp.length := by
    push_cast
    omega
  rw [htn, hdA, List.take_left]
  have herrlen : (NewErrPacket 1045 sqlState28000 (accessDeniedMsg username)).length
      = 34 + username.length := by
    simp [NewErrPacket, sqlState28000, accessDeniedMsg]
    omega
  cases hv : verifyMySQLNativePassword H authResp passwordBytes scramble
  · rw [if_pos (by simp), if_neg (by simp)]
    rw [writeTo, WritePacket, if_neg (by omega)]
  · rw [if_neg (by simp), if_pos (by simp)]
    rw [writeTo, WritePacket, if_neg (by norm_num [NewOKPacket, lengthEncode])]

end Metal

namespace Metal

/-! ### Claim theorems -/

/-- Claim C1: the specification states that parsing the client
handshake-response payload is total and never raises a runtime fault, every
malformed payload producing a structured failure. The code violates this: a
payload of exactly 32 zero bytes passes the 32-byte minimum check, yet the
slice of the payload at the fixed username offset 36 is out of range and
faults; and a payload declaring auth-response length 2 ^ 64 - 1 converts it
to the signed value -1, slips past the end-of-payload check, and makes the
auth-response slice fault. Both runtime faults are exhibited here. -/
theorem handshakeHandler_panics_in_bounds :
    handleClientHandshakePacket hashStub (List.replicate 32 0) (List.replicate 20 1) 1 = .panicked ∧
    handleClientHandshakePacket hashStub
      (List.replicate 36 0 ++ [0, 0xFE, 255, 255, 255, 255, 255, 255, 255, 255])
      (List.replicate 20 1) 1 = .panicked := by
  decide

/-- Claim C2: the specification states that after the ERR packet is emitted
for failed credentials the handshake reports rejection to its caller and the
connection never enters the session command loop. The code violates this: on
a well-formed payload whose auth response fails verification (here a 38-byte
payload with an empty username and an empty auth response), the handler
returns the nil error of the successful ERR write, so Connection.Handle
treats the handshake as successful and enters the post-auth command loop. -/
theorem authRejection_enters_session_loop :
    handleClientHandshakePacket hashStub (List.replicate 36 0 ++ [0, 0]) (List.replicate 20 1) 1 =
      .wrote 2 (NewErrPacket 1045 sqlState28000 (accessDeniedMsg [])) ∧
    handshakeReportsFailure
      (handleClientHandshakePacket hashStub (List.replicate 36 0 ++ [0, 0]) (List.replicate 20 1) 1) = false ∧
    entersSessionLoop
      (handleClientHandshakePacket hashStub (List.replicate 36 0 ++ [0, 0]) (List.replicate 20 1) 1) = true := by
  decide

/-- Claim C3: Verify returns false, and never raises, whenever the client
response is not exactly 20 bytes or the scramble is shorter than 20 bytes;
otherwise it returns true exactly when the response equals candidate XOR
stage1 byte-by-byte over all 20 bytes, with stage1 = HASH(password),
stage2 = HASH(stage1) and candidate = HASH(scramble ++ stage2). -/
theorem verifyNativePassword_spec (H : List Nat → List Nat) (resp pw scr : List Nat) :
    ((resp.length ≠ 20 ∨ scr.length < 20) → verifyMySQLNativePassword H resp pw scr = false) ∧
    (resp.length = 20 → 20 ≤ scr.length →
      (verifyMySQLNativePassword H resp pw scr = true ↔
        ∀ i < 20, resp.getD i 0 = (H (scr ++ H (H pw))).getD i 0 ^^^ (H pw).getD i 0)) := by
  constructor
  · intro h
    rw [verifyMySQLNativePassword, if_pos h]
  · intro h1 h2
    rw [verifyMySQLNativePassword, if_neg (by omega)]
    simp [List.all_eq_true, List.mem_range]

/-- Witness for claim C3 at a concrete input: the empty client response is
shorter than 20 bytes and is rejected. -/
theorem verifyNativePassword_spec_witness :
    (([] : List Nat).length ≠ 20 ∨ ([] : List Nat).length < 20) ∧
    verifyMySQLNativePassword hashStub [] passwordBytes [] = false :=
  ⟨Or.inl (by decide), (verifyNativePassword_spec hashStub [] passwordBytes []).1 (Or.inl (by decide))⟩

/-- Claim C4: on every well-formed client handshake-response packet the
orchestrator emits an OK packet at sequence + 1 when the credential response
verifies against the configured password and the saved scramble, and
otherwise an ERR packet with code 1045, SQL state 28000 and a message
embedding the attempted username, at the same sequence + 1 (uint8
arithmetic, so modulo 256). -/
theorem handshakeResponse_emits_ok_or_err (H : List Nat → List Nat)
    (pre username enc authResp trailing scramble : List Nat) (seq : Nat)
    (hpre : pre.length = 36)
    (hu : (0 : Nat) ∉ username)
    (henc : ReadLengthEncodedInt (enc ++ (authResp ++ trailing)) =
      some (authResp.length, enc.length))
    (hlen : (pre ++ (username ++ (0 :: (enc ++ (authResp ++ trailing))))).length ≤ 0xFFFFFF) :
    handleClientHandshakePacket H (pre ++ (username ++ (0 :: (enc ++ (authResp ++ trailing)))))
        scramble seq =
      if verifyMySQLNativePassword H authResp passwordBytes scramble then
        .wrote ((seq + 1) % 256) (NewOKPacket 0 0 0)
      else
        .wrote ((seq + 1) % 256) (NewErrPacket 1045 sqlState28000 (accessDeniedMsg username)) :=
  handshake_wellFormed H pre username enc authResp trailing scramble seq hpre hu henc hlen

/-- Witness for claim C4 at a concrete well-formed packet: 36 zero bytes, an
empty username, auth-response length 0 and an empty auth response, at client
sequence 1. -/
theorem handshakeResponse_emits_witness :
    (List.replicate 36 (0 : Nat)).length = 36 ∧
    (0 : Nat) ∉ ([] : List Nat) ∧
    ReadLengthEncodedInt ([0] ++ (([] : List Nat) ++ ([] : List Nat))) =
      some (([] : List Nat).length, [(0 : Nat)].length) ∧
    (List.replicate 36 (0 : Nat) ++ (([] : List Nat) ++
      (0 :: ([0] ++ (([] : List Nat) ++ ([] : List Nat)))))).length ≤ 0xFFFFFF ∧
    handleClientHandshakePacket hashStub
        (List.replicate 36 (0 : Nat) ++ (([] : List Nat) ++
          (0 :: ([0] ++ (([] : List Nat) ++ ([] : List Nat))))))
        (List.replicate 20 1) 1 =
      (if verifyMySQLNativePassword hashStub [] passwordBytes (List.replicate 20 1) then
        .wrote ((1 + 1) % 256) (NewOKPacket 0 0 0)
      else
        .wrote ((1 + 1) % 256) (NewErrPacket 1045 sqlState28000 (accessDeniedMsg []))) :=
  ⟨by decide, by decide, by decide, by decide,
    handshakeResponse_emits_ok_or_err hashStub (List.replicate 36 0) [] [0] [] []
      (List.replicate 20 1) 1 (by decide) (by decide) (by decide) (by decide)⟩

/-- Claim C5: the specification states that a quit command produces no
response and terminates the command loop. The code violates this: on a
packet whose first payload byte is the quit command code, handleCommand
returns the io.EOF error, which the loop body of Connection.Handle treats
like any command error, writing back an ERR packet with code 1064 and the
message EOF and continuing the loop. -/
theorem quitCommand_answers_err_and_continues (seq : Nat) (data : List Nat) :
    sessionLoopStep ⟨data.length + 1, seq, 1 :: data⟩ =
      ([((seq + 1) % 256, NewErrPacket 1064 sqlState42000 [69, 79, 70])], .continueLoop) := by
  simp [sessionLoopStep, handleCommand, COM_QUIT, cmdErrMessage]

/-- Counterexample to claim C6: decoding the NULL sentinel byte 0xFB returns
exactly the same value as decoding an ordinary zero byte, value 0 with 1
byte consumed and no error; the return value carries no side flag, so a
caller cannot distinguish the NULL sentinel from integer zero. -/
theorem nullSentinel_equals_zero_decoding :
    ReadLengthEncodedInt [0xFB] = some (0, 1) ∧ ReadLengthEncodedInt [0x00] = some (0, 1) := by
  decide

/-- Claim C6 as amended: ReadLengthEncodedInt applied to any byte sequence
whose first byte is 0xFB succeeds consuming exactly 1 byte with value 0, the
same result as for a leading zero byte; no NULL side flag exists. -/
theorem nullSentinel_consumes_one_byte (rest : List Nat) :
    ReadLengthEncodedInt (0xFB :: rest) = some (0, 1) ∧
    ReadLengthEncodedInt (0x00 :: rest) = some (0, 1) := by
  constructor <;> rfl

/-- Claim C7: for every unsigned 64-bit value, lengthEncode emits the
minimal-width form for its magnitude (1 byte below 251, 3 bytes below 2 ^ 16,
4 bytes below 2 ^ 24, otherwise 9 bytes), and ReadLengthEncodedInt decodes
that output back to the value together with the minimal width. -/
theorem lengthEncodedInt_roundtrip_minimal (v : Nat) (hv : v < 2 ^ 64) :
    ReadLengthEncodedInt (lengthEncode v) =
      some (v, if v < 251 then 1 else if v < 2 ^ 16 then 3 else if v < 2 ^ 24 then 4 else 9) ∧
    (lengthEncode v).length =
      (if v < 251 then 1 else if v < 2 ^ 16 then 3 else if v < 2 ^ 24 then 4 else 9) := by
  rcases Nat.lt_or_ge v 251 with h1 | h1
  · have e1 : lengthEncode v = [v] := by rw [lengthEncode, if_pos h1]
    rw [if_pos h1, e1]
    constructor
    · simp only [ReadLengthEncodedInt]
      rw [if_pos h1]
    · rfl
  rcases Nat.lt_or_ge v (2 ^ 16) with h2 | h2
  · have e1 : lengthEncode v = [0xFC, v % 256, (v >>> 8) % 256] := by
      rw [lengthEncode, if_neg (by omega), if_pos (by rw [Nat.shiftLeft_eq]; omega)]
    rw [if_neg (by omega), if_pos h2, e1]
    constructor
    · simp only [ReadLengthEncodedInt]
      norm_num
      simp only [List.getD, Nat.shiftRight_eq_div_pow]
      rw [lor_shl_eq_add 8 _ (by omega)]
      omega
    · rfl
  rcases Nat.lt_or_ge v (2 ^ 24) with h3 | h3
  · have e1 : lengthEncode v = [0xFD, v % 256, (v >>> 8) % 256, (v >>> 16) % 256] := by
      rw [lengthEncode, if_neg (by omega), if_neg (by rw [Nat.shiftLeft_eq]; omega),
        if_pos (by rw [Nat.shiftLeft_eq]; omega)]
    rw [if_neg (by omega), if_neg (by omega), if_pos h3, e1]
    constructor
    · simp only [ReadLengthEncodedInt]
      norm_num
      simp only [List.getD, Nat.shiftRight_eq_div_pow]
      rw [lor_shl_eq_add 8 _ (by omega), lor_shl_eq_add 16 _ (by omega)]
      omega
    · rfl
  · have e1 : lengthEncode v = 0xFE :: putUint64LE v := by
      rw [lengthEncode, if_neg (by omega), if_neg (by rw [Nat.shiftLeft_eq]; omega),
        if_neg (by rw [Nat.shiftLeft_eq]; omega)]
    rw [if_neg (by omega), if_neg (by omega), if_neg (by omega), e1]
    constructor
    · simp only [ReadLengthEncodedInt]
      norm_num [putUint64LE]
      exact leUint64_putUint64LE v hv
    · rfl

/-- Witness for claim C7 at the concrete value 65535, which takes the 3-byte
form. -/
theorem lengthEncodedInt_roundtrip_witness :
    ((65535 : Nat) < 2 ^ 64 ∧
      ReadLengthEncodedInt (lengthEncode 65535) =
        some (65535, if (65535 : Nat) < 251 then 1 else if (65535 : Nat) < 2 ^ 16 then 3
          else if (65535 : Nat) < 2 ^ 24 then 4 else 9) ∧
      (lengthEncode 65535).length =
        (if (65535 : Nat) < 251 then 1 else if (65535 : Nat) < 2 ^ 16 then 3
          else if (65535 : Nat) < 2 ^ 24 then 4 else 9)) :=
  ⟨by norm_num, (lengthEncodedInt_roundtrip_minimal 65535 (by norm_num)).1,
    (lengthEncodedInt_roundtrip_minimal 65535 (by norm_num)).2⟩

/-- Claim C8: for every payload of at most 0xFFFFFF bytes, including the
empty payload, and every sequence value, writing the packet and parsing the
produced bytes succeeds and yields back the identical sequence and payload,
consuming the whole stream. -/
theorem packetCodec_roundtrip (seq : Nat) (payload : List Nat)
    (h : payload.length ≤ 0xFFFFFF) :
    ∃ bytes, WritePacket seq payload = .ok bytes ∧
      ReadPacket bytes = .ok (⟨payload.length, seq, payload⟩, []) := by
  refine ⟨[payload.length % 256, (payload.length >>> 8) % 256,
    (payload.length >>> 16) % 256, seq] ++ payload, ?_, ?_⟩
  · rw [WritePacket, if_neg (by omega)]
  · have hL : payload.length % 256 ||| (((payload.length >>> 8) % 256) <<< 8) |||
        (((payload.length >>> 16) % 256) <<< 16) = payload.length := by
      simp only [Nat.shiftRight_eq_div_pow]
      rw [lor_shl_eq_add 8 _ (by omega), lor_shl_eq_add 16 _ (by omega)]
      omega
    simp only [List.cons_append, List.nil_append, ReadPacket, hL]
    by_cases h0 : payload.length = 0
    · have hnil : payload = [] := List.length_eq_zero.mp h0
      rw [if_pos h0, hnil]
      rfl
    · rw [if_neg h0, if_neg (by omega), List.take_length, List.drop_length]

/-- Witness for claim C8 at sequence 7 and a concrete 5-byte payload. -/
theorem packetCodec_roundtrip_witness :
    ([104, 101, 108, 108, 111] : List Nat).length ≤ 0xFFFFFF ∧
    ∃ bytes, WritePacket 7 [104, 101, 108, 108, 111] = .ok bytes ∧
      ReadPacket bytes =
        .ok (⟨([104, 101, 108, 108, 111] : List Nat).length, 7, [104, 101, 108, 108, 111]⟩, []) :=
  ⟨by decide, packetCodec_roundtrip 7 [104, 101, 108, 108, 111] (by decide)⟩

/-- Claim C9: WritePacket fails with the payload-too-large error for every
payload strictly longer than 0xFFFFFF bytes, producing no output bytes, and
for every payload within the bound it produces exactly the 4-byte header,
3-byte little-endian length then the sequence byte, followed by the
payload. -/
theorem writePacket_rejects_oversize_and_frames (seq : Nat) (payload : List Nat) :
    (payload.length > 0xFFFFFF → WritePacket seq payload = .error .payloadTooLarge) ∧
    (payload.length ≤ 0xFFFFFF →
      WritePacket seq payload =
        .ok ([payload.length % 256, (payload.length >>> 8) % 256,
              (payload.length >>> 16) % 256, seq] ++ payload)) := by
  constructor <;> intro h
  · rw [WritePacket, if_pos h]
  · rw [WritePacket, if_neg (by omega)]

/-- Witness for claim C9: a payload of 0xFFFFFF + 1 zero bytes is rejected,
and a concrete 2-byte payload is framed. -/
theorem writePacket_oversize_witness :
    ((List.replicate 16777216 (0 : Nat)).length > 0xFFFFFF ∧
      WritePacket 0 (List.replicate 16777216 (0 : Nat)) = .error .payloadTooLarge) ∧
    (([104, 105] : List Nat).length ≤ 0xFFFFFF ∧
      WritePacket 7 [104, 105] =
        .ok ([([104, 105] : List Nat).length % 256, (([104, 105] : List Nat).length >>> 8) % 256,
              (([104, 105] : List Nat).length >>> 16) % 256, 7] ++ [104, 105])) := by
  constructor
  · have h : (List.replicate 16777216 (0 : Nat)).length > 0xFFFFFF := by
      rw [List.length_replicate]; norm_num
    exact ⟨h, (writePacket_rejects_oversize_and_frames 0 _).1 h⟩
  · exact ⟨by decide, (writePacket_rejects_oversize_and_frames 7 [104, 105]).2 (by decide)⟩

/-- Claim C10: the authentication outcome does not depend on the username.
For two well-formed handshake-response payloads that differ only in the
username field and share the auth response, the scramble and the configured
password, the OK-versus-ERR choice is the same, and it equals the decision of
the credential verifier, which never reads the username. -/
theorem authOutcome_independent_of_username (H : List Nat → List Nat)
    (pre u1 u2 enc authResp trailing scramble : List Nat) (seq : Nat)
    (hpre : pre.length = 36)
    (hu1 : (0 : Nat) ∉ u1) (hu2 : (0 : Nat) ∉ u2)
    (henc : ReadLengthEncodedInt (enc ++ (authResp ++ trailing)) =
      some (authResp.length, enc.length))
    (hlen1 : (pre ++ (u1 ++ (0 :: (enc ++ (authResp ++ trailing))))).length ≤ 0xFFFFFF)
    (hlen2 : (pre ++ (u2 ++ (0 :: (enc ++ (authResp ++ trailing))))).length ≤ 0xFFFFFF) :
    hsWroteOK (handleClientHandshakePacket H
        (pre ++ (u1 ++ (0 :: (enc ++ (authResp ++ trailing))))) scramble seq) =
      hsWroteOK (handleClientHandshakePacket H
        (pre ++ (u2 ++ (0 :: (enc ++ (authResp ++ trailing))))) scramble seq) ∧
    hsWroteOK (handleClientHandshakePacket H
        (pre ++ (u1 ++ (0 :: (enc ++ (authResp ++ trailing))))) scramble seq) =
      verifyMySQLNativePassword H authResp passwordBytes scramble := by
  have e1 := handshake_wellFormed H pre u1 enc authResp trailing scramble seq hpre hu1 henc hlen1
  have e2 := handshake_wellFormed H pre u2 enc authResp trailing scramble seq hpre hu2 henc hlen2
  rw [e1, e2]
  cases hv : verifyMySQLNativePassword H authResp passwordBytes scramble <;>
    simp [hsWroteOK, NewOKPacket, NewErrPacket, lengthEncode]

/-- Witness for claim C10 at two concrete payloads differing only in the
username, the empty username versus the single letter a. -/
theorem authOutcome_independent_witness :
    (List.replicate 36 (0 : Nat)).length = 36 ∧
    (0 : Nat) ∉ ([] : List Nat) ∧
    (0 : Nat) ∉ ([97] : List Nat) ∧
    ReadLengthEncodedInt ([0] ++ (([] : List Nat) ++ ([] : List Nat))) =
      some (([] : List Nat).length, [(0 : Nat)].length) ∧
    (List.replicate 36 (0 : Nat) ++ (([] : List Nat) ++
      (0 :: ([0] ++ (([] : List Nat) ++ ([] : List Nat)))))).length ≤ 0xFFFFFF ∧
    (List.replicate 36 (0 : Nat) ++ (([97] : List Nat) ++
      (0 :: ([0] ++ (([] : List Nat) ++ ([] : List Nat)))))).length ≤ 0xFFFFFF ∧
    (hsWroteOK (handleClientHandshakePacket hashStub
        (List.replicate 36 (0 : Nat) ++ (([] : List Nat) ++
          (0 :: ([0] ++ (([] : List Nat) ++ ([] : List Nat))))))
        (List.replicate 20 1) 1) =
      hsWroteOK (handleClientHandshakePacket hashStub
        (List.replicate 36 (0 : Nat) ++ (([97] : List Nat) ++
          (0 :: ([0] ++ (([] : List Nat) ++ ([] : List Nat))))))
        (List.replicate 20 1) 1) ∧
    hsWroteOK (handleClientHandshakePacket hashStub
        (List.replicate 36 (0 : Nat) ++ (([] : List Nat) ++
          (0 :: ([0] ++ (([] : List Nat) ++ ([] : List Nat))))))
        (List.replicate 20 1) 1) =
      verifyMySQLNativePassword hashStub [] passwordBytes (List.replicate 20 1)) :=
  ⟨by decide, by decide, by decide, by decide, by decide, by decide,
    authOutcome_independent_of_username hashStub (List.replicate 36 0) [] [97] [0] [] []
      (List.replicate 20 1) 1 (by decide) (by decide) (by decide) (by decide)
      (by decide) (by decide)⟩

end Metal
